import Mathlib

/-!
Shallow embedding of the ResultStore batch `writer` component
(`package writer`, file `resultstore/writer.go`-style source): a client
that uploads invocation resources to the ResultStore service in batches
of at most `batchSize` upload requests, under a retry/backoff loop, with
resume-token rotation.

Remote effects are modelled by explicit oracles:
  * `gen : Nat → String` — the resume-token generator (`resumeToken()` in
    the source, which base64-encodes a fresh UUID); `gen n` is the n-th
    token the writer generates.
  * `resp : Nat → Code` — the status code returned by the n-th remote
    `UploadBatch` call (`Code.ok` means the call succeeded).

State mutation of the Go `writer` struct is modelled by explicit state
passing over `WState`, which also carries a log (`sent`) of every remote
`UploadBatch` request issued, so that "exactly k remote calls were made,
each with such-and-such request" is a statement about the final state.
Real-time aspects (backoff delays, the 5-minute deadline) are abstracted:
the retry loops are bounded by the step budget `rpcRetrySteps = 8`
(`wait.Backoff.Steps`), and exhaustion of that budget stands for
`wait.ErrWaitTimeout`.
-/

namespace ResultStoreWriter

/-- gRPC status codes (`google.golang.org/grpc/codes`). `ok` is the code
of a nil error (`status.FromError(nil)` yields an OK status). -/
inductive Code where
  | ok
  | cancelled
  | unknown
  | invalidArgument
  | deadlineExceeded
  | notFound
  | alreadyExists
  | permissionDenied
  | resourceExhausted
  | failedPrecondition
  | aborted
  | outOfRange
  | unimplemented
  | internal
  | unavailable
  | dataLoss
  | unauthenticated
deriving DecidableEq

/-- `IsPermanentError`, classified purely on the status code: the six
codes the source's switch statement lists are permanent, everything else
is transient. -/
def IsPermanentError (c : Code) : Bool :=
  match c with
  | .alreadyExists => true
  | .notFound => true
  | .invalidArgument => true
  | .failedPrecondition => true
  | .unimplemented => true
  | .permissionDenied => true
  | _ => false

/-- Errors surfaced by a retried RPC: either a gRPC status error, or
`wait.ErrWaitTimeout` when the backoff budget is exhausted. -/
inductive RErr where
  | status (c : Code)
  | waitTimeout
deriving DecidableEq

/-- The status code `status.FromError` extracts from an error value: a
status error carries its own code; a non-status error such as
`wait.ErrWaitTimeout` is converted to a status with `codes.Unknown`. -/
def errCode : RErr → Code
  | .status c => c
  | .waitTimeout => .unknown

/-- `IsPermanentError` applied to a possibly-nil Go error: a nil error
has code OK and is not permanent. -/
def IsPermanentErrorOpt : Option RErr → Bool
  | none => false
  | some e => IsPermanentError (errCode e)

/-- `IsAlreadyExistsErr` — whether the error's status code is
AlreadyExists. -/
def IsAlreadyExistsErr : RErr → Bool :=
  fun e => errCode e = .alreadyExists

/-- The six status codes the spec names as permanent, written out from
the spec's words for comparison with `IsPermanentError`. -/
def permanentCodesSpec : List Code :=
  [.alreadyExists, .notFound, .invalidArgument, .failedPrecondition,
   .unimplemented, .permissionDenied]

/-- `batchSize` — upload requests per batch. -/
def batchSize : Nat := 100

/-- `rpcRetryBackoff.Steps` — attempts allowed per retried RPC. -/
def rpcRetrySteps : Nat := 8

/-! ### Resource payloads and upload-request envelopes

Each proto message's `Id` field is a nullable pointer, modelled as an
`Option`; the remaining payload of each resource is opaque to the writer
and is modelled by a single `payload` string. -/

structure Configuration_Id where
  configurationId : String
deriving DecidableEq

structure Configuration where
  id : Option Configuration_Id
  payload : String
deriving DecidableEq

structure Target_Id where
  targetId : String
deriving DecidableEq

structure Target where
  id : Option Target_Id
  payload : String
deriving DecidableEq

structure ConfiguredTarget_Id where
  targetId : String
  configurationId : String
deriving DecidableEq

structure ConfiguredTarget where
  id : Option ConfiguredTarget_Id
  payload : String
deriving DecidableEq

structure Action_Id where
  targetId : String
  configurationId : String
  actionId : String
deriving DecidableEq

structure Action where
  id : Option Action_Id
  payload : String
deriving DecidableEq

/-- `UploadRequest_Id` — the envelope key; unset proto string fields
default to `""`. -/
structure UploadRequest_Id where
  configurationId : String := ""
  targetId : String := ""
  actionId : String := ""
deriving DecidableEq

/-- `UploadRequest.UploadOperation` enum values. -/
inductive UploadOperation where
  | unspecified
  | create
  | update
  | merge
  | finalize
deriving DecidableEq

/-- The `Resource` oneof of `UploadRequest`. `invocation` is the empty
`UploadRequest_Invocation{}` wrapper used by the finalize marker. -/
inductive UploadResource where
  | configuration (c : Configuration)
  | target (t : Target)
  | configuredTarget (ct : ConfiguredTarget)
  | action (a : Action)
  | invocation
deriving DecidableEq

structure UploadRequest where
  id : Option UploadRequest_Id
  uploadOperation : UploadOperation
  resource : Option UploadResource
deriving DecidableEq

/-- `createConfigurationUploadRequest`. The source reads
`c.Id.ConfigurationId` by direct pointer dereference, so a nil `Id`
panics; the panic is modelled as `none`. The `Id` field is stripped from
the embedded payload (`c.Id = nil`). -/
def createConfigurationUploadRequest (c : Configuration) : Option UploadRequest :=
  match c.id with
  | none => none
  | some cid =>
    some { id := some { configurationId := cid.configurationId }
         , uploadOperation := .create
         , resource := some (.configuration { c with id := none }) }

/-- `createTargetUploadRequest`. Uses the nil-safe getter
`t.Id.GetTargetId()`, which yields `""` on a nil `Id`, so it is total. -/
def createTargetUploadRequest (t : Target) : UploadRequest :=
  { id := some { targetId := (t.id.map Target_Id.targetId).getD "" }
  , uploadOperation := .create
  , resource := some (.target { t with id := none }) }

/-- `createConfiguredTargetUploadRequest`, total via nil-safe getters. -/
def createConfiguredTargetUploadRequest (ct : ConfiguredTarget) : UploadRequest :=
  { id := some { targetId := (ct.id.map ConfiguredTarget_Id.targetId).getD ""
               , configurationId := (ct.id.map ConfiguredTarget_Id.configurationId).getD "" }
  , uploadOperation := .create
  , resource := some (.configuredTarget { ct with id := none }) }

/-- `createActionUploadRequest`, total via nil-safe getters. -/
def createActionUploadRequest (a : Action) : UploadRequest :=
  { id := some { targetId := (a.id.map Action_Id.targetId).getD ""
               , configurationId := (a.id.map Action_Id.configurationId).getD ""
               , actionId := (a.id.map Action_Id.actionId).getD "" }
  , uploadOperation := .create
  , resource := some (.action { a with id := none }) }

/-- `finalizeRequest` — the finalize marker envelope: no key, no payload,
operation FINALIZE. -/
def finalizeRequest : UploadRequest :=
  { id := none, uploadOperation := .finalize, resource := some .invocation }

/-! ### Writer state -/

/-- The mutable fields of the Go `writer` struct (the logger and the RPC
client are effect handles, not state). -/
structure Writer where
  invID : String
  authToken : String
  resumeToken : String
  updates : List UploadRequest
  finalized : Bool
deriving DecidableEq

/-- `invocationName` — `fmt.Sprintf("invocations/%s", w.invID)`. -/
def invocationName (w : Writer) : String :=
  "invocations/" ++ w.invID

/-- `UploadBatchRequest` as built by `uploadBatchRequest`. -/
structure UploadBatchRequest where
  parent : String
  resumeToken : String
  nextResumeToken : String
  authorizationToken : String
  uploadRequests : List UploadRequest
deriving DecidableEq

/-- The writer plus the instrumentation needed to observe effects:
`tokenCtr` counts calls of the token generator, `callCtr` counts remote
`UploadBatch` calls, and `sent` logs every `UploadBatch` request issued,
in order. -/
structure WState where
  w : Writer
  tokenCtr : Nat
  callCtr : Nat
  sent : List UploadBatchRequest
deriving DecidableEq

/-- Outcome of one `flushUpdates` call: the backoff loop ends in success,
in a permanent error (short-circuit), or in budget exhaustion
(`wait.ErrWaitTimeout`). -/
inductive FlushResult where
  | success
  | permanentErr (c : Code)
  | exhausted
deriving DecidableEq

/-- Error returned by a public write operation. -/
inductive WriteErr where
  | afterFinalized
  | permanentErr (c : Code)
  | exhausted
deriving DecidableEq

/-- `uploadBatchRequest` — builds the batched request from the current
resume token and a freshly generated next token, and commits the next
token into `w.resumeToken` immediately (`w.resumeToken = nextToken`),
before any call is made. -/
def uploadBatchRequest (gen : Nat → String) (st : WState) (reqs : List UploadRequest) :
    UploadBatchRequest × WState :=
  let nextToken := gen st.tokenCtr
  ({ parent := invocationName st.w
   , resumeToken := st.w.resumeToken
   , nextResumeToken := nextToken
   , authorizationToken := st.w.authToken
   , uploadRequests := reqs },
   { st with w := { st.w with resumeToken := nextToken }
           , tokenCtr := st.tokenCtr + 1 })

/-- The body of `wait.ExponentialBackoffWithContext` inside
`flushUpdates`: up to `fuel` attempts of `client.UploadBatch(ctx, b)`;
success clears `w.updates`, a permanent error stops the loop with that
error, a transient error is retried, and running out of attempts is
exhaustion. The same request `b` is sent on every attempt. -/
def flushAttempts (resp : Nat → Code) (b : UploadBatchRequest) :
    Nat → WState → WState × FlushResult
  | 0, st => (st, .exhausted)
  | fuel + 1, st =>
    let c := resp st.callCtr
    let st1 := { st with callCtr := st.callCtr + 1, sent := st.sent ++ [b] }
    if c = .ok then
      ({ st1 with w := { st1.w with updates := [] } }, .success)
    else if IsPermanentError c then
      (st1, .permanentErr c)
    else
      flushAttempts resp b fuel st1

/-- `flushUpdates` — builds the batch request once (rotating the token at
construction) and runs the retry loop on that one request. -/
def flushUpdates (gen : Nat → String) (resp : Nat → Code) (st : WState) :
    WState × FlushResult :=
  let p := uploadBatchRequest gen st st.w.updates
  flushAttempts resp p.1 rpcRetrySteps p.2

/-- The error value `addUploadRequest` propagates from `flushUpdates`
(`nil` on success, the flush error otherwise). -/
def flushErrToWriteErr : FlushResult → Option WriteErr
  | .success => none
  | .permanentErr c => some (.permanentErr c)
  | .exhausted => some .exhausted

/-- `addUploadRequest` — rejects writes after finalization; a FINALIZE
envelope sets the latch before anything else happens; the envelope is
appended; the call returns without flushing only when the writer is not
finalized and the buffer is still below `batchSize`, and otherwise
flushes. -/
def addUploadRequest (gen : Nat → String) (resp : Nat → Code) (st : WState)
    (r : UploadRequest) : WState × Option WriteErr :=
  if st.w.finalized then
    (st, some .afterFinalized)
  else
    let w1 := if r.uploadOperation = .finalize then { st.w with finalized := true } else st.w
    let w2 := { w1 with updates := w1.updates ++ [r] }
    let st2 := { st with w := w2 }
    if !w2.finalized && w2.updates.length < batchSize then
      (st2, none)
    else
      let q := flushUpdates gen resp st2
      (q.1, flushErrToWriteErr q.2)

/-- `WriteConfiguration`. The envelope is built (and may panic on a nil
`Id`, modelled as `none`) before `addUploadRequest` runs, matching Go
argument evaluation. -/
def WriteConfiguration (gen : Nat → String) (resp : Nat → Code) (st : WState)
    (c : Configuration) : Option (WState × Option WriteErr) :=
  (createConfigurationUploadRequest c).map (addUploadRequest gen resp st)

/-- `WriteTarget`. -/
def WriteTarget (gen : Nat → String) (resp : Nat → Code) (st : WState)
    (t : Target) : WState × Option WriteErr :=
  addUploadRequest gen resp st (createTargetUploadRequest t)

/-- `WriteConfiguredTarget`. -/
def WriteConfiguredTarget (gen : Nat → String) (resp : Nat → Code) (st : WState)
    (ct : ConfiguredTarget) : WState × Option WriteErr :=
  addUploadRequest gen resp st (createConfiguredTargetUploadRequest ct)

/-- `WriteAction`. -/
def WriteAction (gen : Nat → String) (resp : Nat → Code) (st : WState)
    (a : Action) : WState × Option WriteErr :=
  addUploadRequest gen resp st (createActionUploadRequest a)

/-- `Finalize` — appends the finalize marker envelope. -/
def Finalize (gen : Nat → String) (resp : Nat → Code) (st : WState) :
    WState × Option WriteErr :=
  addUploadRequest gen resp st finalizeRequest

/-! ### The open/resume handshake (`New`) -/

/-- `CreateInvocationRequest` as built by `createInvocationRequest`; the
invocation payload is opaque to the writer. -/
structure CreateInvocationRequest where
  invocationId : String
  invocation : String
  authorizationToken : String
  initialResumeToken : String
deriving DecidableEq

/-- `createInvocationRequest`. -/
def createInvocationRequest (w : Writer) (inv : String) : CreateInvocationRequest :=
  { invocationId := w.invID
  , invocation := inv
  , authorizationToken := w.authToken
  , initialResumeToken := w.resumeToken }

/-- The retry loop shared by `createInvocation`, `touchInvocation` and
`retrieveResumeToken` (`wait.ExponentialBackoffWithContext` with
`onlyPermanentError`): attempt `i` observes status `resp i`; success ends
the loop with no error, a permanent status ends it with that status
error, a transient status is retried, and exhausting the budget yields
`wait.ErrWaitTimeout`. Returns the surfaced error (`none` on success) and
the index after the last attempt. -/
def retryLoop (resp : Nat → Code) : Nat → Nat → Option RErr × Nat
  | 0, i => (some .waitTimeout, i)
  | fuel + 1, i =>
    let c := resp i
    if c = .ok then (none, i + 1)
    else if IsPermanentError c then (some (.status c), i + 1)
    else retryLoop resp fuel (i + 1)

/-- Result of the handshake: a ready writer, or the error `New` returns
(with a nil writer). -/
inductive NewResult where
  | ok (w : Writer)
  | err (e : RErr)
deriving DecidableEq

/-- The writer value `New` constructs before its first remote call: fresh
initial resume token `gen 0`, empty buffer, not finalized. -/
def initialWriter (gen : Nat → String) (invID authToken : String) : Writer :=
  { invID := invID
  , authToken := authToken
  , resumeToken := gen 0
  , updates := []
  , finalized := false }

/-- `New` — the open/resume handshake. `createResp`, `touchResp` and
`metaResp` are the status oracles of the three retried RPCs (each loop
indexes its own oracle from 0); `metaToken` is the resume token carried
by the successful `GetInvocationUploadMetadata` response. If creation
succeeds the fresh writer is returned; a non-AlreadyExists creation error
is returned as-is; on AlreadyExists, a permanent touch failure returns
the original creation error, and otherwise the service-held resume token
is fetched and adopted. -/
def New (gen : Nat → String) (createResp touchResp metaResp : Nat → Code)
    (metaToken : String) (invID authToken : String) : NewResult :=
  let w0 := initialWriter gen invID authToken
  match (retryLoop createResp rpcRetrySteps 0).1 with
  | none => .ok w0
  | some e =>
    if !(IsAlreadyExistsErr e) then
      .err e
    else if IsPermanentErrorOpt (retryLoop touchResp rpcRetrySteps 0).1 then
      .err e
    else
      match (retryLoop metaResp rpcRetrySteps 0).1 with
      | some e2 => .err e2
      | none => .ok { w0 with resumeToken := metaToken }

/-! ### Concrete oracles and states used by scenarios and witnesses -/

/-- A remote service that accepts every call. -/
def allOk : Nat → Code := fun _ => .ok

/-- A remote service that fails every call with a transient status. -/
def failInternal : Nat → Code := fun _ => .internal

/-- A constant token generator (tokens need not be distinct for these
statements). -/
def genConst : Nat → String := fun _ => "u"

/-- A sample non-finalize envelope. -/
def sampleReq : UploadRequest :=
  createTargetUploadRequest { id := some { targetId := "t1" }, payload := "pl" }

/-- A freshly opened writer state with one pending envelope. -/
def cexWState : WState :=
  { w := { invID := "inv-1", authToken := "auth-1", resumeToken := "t0"
         , updates := [sampleReq], finalized := false }
  , tokenCtr := 0, callCtr := 0, sent := [] }

/-! ### Unfolding and structural lemmas for the retry loops -/

theorem flushAttempts_zero (resp : Nat → Code) (b : UploadBatchRequest) (st : WState) :
    flushAttempts resp b 0 st = (st, .exhausted) := rfl

theorem flushAttempts_succ (resp : Nat → Code) (b : UploadBatchRequest) (fuel : Nat)
    (st : WState) :
    flushAttempts resp b (fuel + 1) st =
      if resp st.callCtr = .ok then
        ({ st with callCtr := st.callCtr + 1, sent := st.sent ++ [b]
                 , w := { st.w with updates := [] } }, .success)
      else if IsPermanentError (resp st.callCtr) then
        ({ st with callCtr := st.callCtr + 1, sent := st.sent ++ [b] },
         .permanentErr (resp st.callCtr))
      else
        flushAttempts resp b fuel
          { st with callCtr := st.callCtr + 1, sent := st.sent ++ [b] } := rfl

/-- The retry loop of a flush never touches the resume token, the
finalized latch, the identity fields or the token counter, and it clears
the buffer exactly when it ends in success. -/
theorem flushAttempts_state (resp : Nat → Code) (b : UploadBatchRequest) :
    ∀ (fuel : Nat) (st : WState),
      (flushAttempts resp b fuel st).1.w.resumeToken = st.w.resumeToken ∧
      (flushAttempts resp b fuel st).1.w.finalized = st.w.finalized ∧
      (flushAttempts resp b fuel st).1.w.invID = st.w.invID ∧
      (flushAttempts resp b fuel st).1.w.authToken = st.w.authToken ∧
      (flushAttempts resp b fuel st).1.tokenCtr = st.tokenCtr ∧
      ((flushAttempts resp b fuel st).2 = .success →
        (flushAttempts resp b fuel st).1.w.updates = []) ∧
      ((flushAttempts resp b fuel st).2 ≠ .success →
        (flushAttempts resp b fuel st).1.w.updates = st.w.updates) := by
  intro fuel
  induction fuel with
  | zero => intro st; simp [flushAttempts_zero]
  | succ fuel ih =>
    intro st
    rw [flushAttempts_succ]
    by_cases hok : resp st.callCtr = .ok
    · simp [hok]
    · by_cases hperm : IsPermanentError (resp st.callCtr)
      · simp [hok, hperm]
      · simpa [hok, hperm] using
          ih { st with callCtr := st.callCtr + 1, sent := st.sent ++ [b] }

/-- The retry loop of a flush appends some number `k` of copies of the
one request `b` to the log — every attempt sends the identical request —
and makes at least one call whenever it has fuel. -/
theorem flushAttempts_sent (resp : Nat → Code) (b : UploadBatchRequest) :
    ∀ (fuel : Nat) (st : WState), ∃ k : Nat,
      (flushAttempts resp b fuel st).1.sent = st.sent ++ List.replicate k b ∧
      (0 < fuel → 0 < k) ∧ k ≤ fuel := by
  intro fuel
  induction fuel with
  | zero => intro st; exact ⟨0, by simp [flushAttempts_zero], by simp, by simp⟩
  | succ fuel ih =>
    intro st
    rw [flushAttempts_succ]
    by_cases hok : resp st.callCtr = .ok
    · exact ⟨1, by simp [hok], by simp, by omega⟩
    · by_cases hperm : IsPermanentError (resp st.callCtr)
      · exact ⟨1, by simp [hok, hperm], by simp, by omega⟩
      · obtain ⟨k, hsent, -, hk⟩ :=
          ih { st with callCtr := st.callCtr + 1, sent := st.sent ++ [b] }
        refine ⟨k + 1, ?_, by simp, by omega⟩
        simp [hok, hperm, hsent, List.replicate_succ]

/-- When the service fails `n` attempts with transient statuses and then
accepts attempt `n` (all within the fuel budget), the retry loop of a
flush ends in success having sent the identical request `b` exactly
`n + 1` times, with the buffer cleared. -/
theorem flushAttempts_transient_then_ok (resp : Nat → Code) (b : UploadBatchRequest) :
    ∀ (n fuel : Nat) (st : WState),
      (∀ j, j < n → resp (st.callCtr + j) ≠ .ok ∧
        IsPermanentError (resp (st.callCtr + j)) = false) →
      resp (st.callCtr + n) = .ok →
      n < fuel →
      flushAttempts resp b fuel st =
        ({ st with callCtr := st.callCtr + (n + 1)
                 , sent := st.sent ++ List.replicate (n + 1) b
                 , w := { st.w with updates := [] } }, .success) := by
  intro n
  induction n with
  | zero =>
    intro fuel st _ hok hn
    match fuel, hn with
    | fuel + 1, _ =>
      rw [flushAttempts_succ]
      simp only [Nat.add_zero] at hok
      simp [hok]
  | succ n ih =>
    intro fuel st htr hok hn
    match fuel, hn with
    | fuel + 1, hn =>
      have h0 := htr 0 (Nat.succ_pos n)
      rw [flushAttempts_succ]
      rw [if_neg (by simpa using h0.1), if_neg (by simpa using h0.2)]
      have ih' := ih fuel { st with callCtr := st.callCtr + 1, sent := st.sent ++ [b] }
        (by
          intro j hj
          have := htr (j + 1) (by omega)
          simpa [Nat.add_assoc, Nat.add_comm 1 j] using this)
        (by
          have : st.callCtr + 1 + n = st.callCtr + (n + 1) := by omega
          simpa [this] using hok)
        (by omega)
      rw [ih']
      have hc : st.callCtr + 1 + (n + 1) = st.callCtr + (n + 1 + 1) := by omega
      simp [hc, List.replicate_succ, List.append_assoc]

/-- `flushUpdates` against an always-accepting service: one call is made,
the buffer is cleared, and the next token (generated at request
construction) is the new current token. -/
theorem flushUpdates_allOk (gen : Nat → String) (st : WState) :
    flushUpdates gen allOk st =
      ({ w := { invID := st.w.invID, authToken := st.w.authToken
              , resumeToken := gen st.tokenCtr, updates := []
              , finalized := st.w.finalized }
       , tokenCtr := st.tokenCtr + 1
       , callCtr := st.callCtr + 1
       , sent := st.sent ++
           [{ parent := invocationName st.w
            , resumeToken := st.w.resumeToken
            , nextResumeToken := gen st.tokenCtr
            , authorizationToken := st.w.authToken
            , uploadRequests := st.w.updates }] }, .success) := rfl

/-! ### Characterization of `addUploadRequest` -/

/-- A write on a finalized writer is rejected synchronously: the state is
returned untouched (in particular no request is logged as sent). -/
theorem addUploadRequest_finalized (gen : Nat → String) (resp : Nat → Code)
    (st : WState) (r : UploadRequest) (h : st.w.finalized = true) :
    addUploadRequest gen resp st r = (st, some .afterFinalized) := by
  simp [addUploadRequest, h]

/-- A non-finalize append that leaves the buffer below `batchSize` just
appends and returns no error; nothing else changes. -/
theorem addUploadRequest_below (gen : Nat → String) (resp : Nat → Code)
    (st : WState) (r : UploadRequest) (hf : st.w.finalized = false)
    (hop : r.uploadOperation ≠ .finalize)
    (hlen : st.w.updates.length + 1 < batchSize) :
    addUploadRequest gen resp st r =
      ({ st with w := { st.w with updates := st.w.updates ++ [r] } }, none) := by
  simp [addUploadRequest, hf, hop, hlen]

/-- A non-finalize append that brings the buffer to (or beyond)
`batchSize` flushes the appended buffer. -/
theorem addUploadRequest_full (gen : Nat → String) (resp : Nat → Code)
    (st : WState) (r : UploadRequest) (hf : st.w.finalized = false)
    (hop : r.uploadOperation ≠ .finalize)
    (hlen : ¬ (st.w.updates.length + 1 < batchSize)) :
    addUploadRequest gen resp st r =
      ((flushUpdates gen resp
          { st with w := { st.w with updates := st.w.updates ++ [r] } }).1,
       flushErrToWriteErr (flushUpdates gen resp
          { st with w := { st.w with updates := st.w.updates ++ [r] } }).2) := by
  simp [addUploadRequest, hf, hop, hlen]

/-- Appending the finalize marker to a non-finalized writer sets the
latch and flushes the appended buffer unconditionally. -/
theorem addUploadRequest_finalize (gen : Nat → String) (resp : Nat → Code)
    (st : WState) (r : UploadRequest) (hf : st.w.finalized = false)
    (hop : r.uploadOperation = .finalize) :
    addUploadRequest gen resp st r =
      ((flushUpdates gen resp
          { st with w :=
              { st.w with finalized := true, updates := st.w.updates ++ [r] } }).1,
       flushErrToWriteErr (flushUpdates gen resp
          { st with w :=
              { st.w with finalized := true, updates := st.w.updates ++ [r] } }).2) := by
  simp [addUploadRequest, hf, hop]

/-! ### Claim theorems -/

/-- Claim C2: `IsPermanentError` is a pure total function of the status
code, returning permanent exactly on the six listed codes and transient
on every other status, including the Unknown code of a non-status error
and the OK code of an absent (nil) error. -/
theorem c2_error_classification :
    (∀ c : Code, IsPermanentError c = permanentCodesSpec.contains c) ∧
    IsPermanentErrorOpt none = false ∧
    IsPermanentError .unknown = false ∧
    (∀ e : RErr, IsPermanentErrorOpt (some e) = IsPermanentError (errCode e)) := by
  refine ⟨fun c => ?_, rfl, rfl, fun e => rfl⟩
  cases c <;> rfl

/-- Claim C10: building a configuration envelope dereferences the `Id`
pointer without a guard — a nil `Id` panics (modelled as `none`) —
whereas the target, configured-target and action builders use nil-safe
getters and produce an envelope with empty-string key fields for a nil
`Id`. -/
theorem c10_configuration_builder_partial :
    (∀ p : String,
      createConfigurationUploadRequest { id := none, payload := p } = none) ∧
    (∀ p : String,
      createTargetUploadRequest { id := none, payload := p } =
        { id := some { configurationId := "", targetId := "", actionId := "" }
        , uploadOperation := .create
        , resource := some (.target { id := none, payload := p }) }) ∧
    (∀ p : String,
      createConfiguredTargetUploadRequest { id := none, payload := p } =
        { id := some { configurationId := "", targetId := "", actionId := "" }
        , uploadOperation := .create
        , resource := some (.configuredTarget { id := none, payload := p }) }) ∧
    (∀ p : String,
      createActionUploadRequest { id := none, payload := p } =
        { id := some { configurationId := "", targetId := "", actionId := "" }
        , uploadOperation := .create
        , resource := some (.action { id := none, payload := p }) }) :=
  ⟨fun _ => rfl, fun _ => rfl, fun _ => rfl, fun _ => rfl⟩

/-- Claim C1 is false on the code: at this concrete state, a flush whose
every attempt fails transiently (budget exhausted) leaves the buffer
unchanged but does NOT leave the current resume token unchanged — the
token was already rotated at request construction. -/
theorem c1_counterexample :
    (flushUpdates genConst failInternal cexWState).2 ≠ .success ∧
    (flushUpdates genConst failInternal cexWState).1.w.updates =
      cexWState.w.updates ∧
    (flushUpdates genConst failInternal cexWState).1.w.resumeToken ≠
      cexWState.w.resumeToken := by
  decide

/-- Claim C1 as amended: a failed flush leaves the pending buffer
unchanged (the identical envelope list is resent by a later flush), and a
successful flush clears it; but in both cases the freshly generated next
token is already committed as the writer's current token at request
construction, before the outcome is known. -/
theorem c1_amended_flush_state (gen : Nat → String) (resp : Nat → Code) (st : WState) :
    (flushUpdates gen resp st).1.w.resumeToken = gen st.tokenCtr ∧
    (flushUpdates gen resp st).1.tokenCtr = st.tokenCtr + 1 ∧
    ((flushUpdates gen resp st).2 = .success →
      (flushUpdates gen resp st).1.w.updates = []) ∧
    ((flushUpdates gen resp st).2 ≠ .success →
      (flushUpdates gen resp st).1.w.updates = st.w.updates) ∧
    (flushUpdates gen resp st).1.w.finalized = st.w.finalized ∧
    (flushUpdates gen resp st).1.w.invID = st.w.invID ∧
    (flushUpdates gen resp st).1.w.authToken = st.w.authToken := by
  obtain ⟨h1, h2, h3, h4, h5, h6, h7⟩ := flushAttempts_state resp
    (uploadBatchRequest gen st st.w.updates).1 rpcRetrySteps
    (uploadBatchRequest gen st st.w.updates).2
  exact ⟨h1, h5, h6, h7, h2, h3, h4⟩

theorem c1_amended_flush_state_witness :
    (flushUpdates genConst failInternal cexWState).1.w.resumeToken =
      genConst cexWState.tokenCtr ∧
    (flushUpdates genConst failInternal cexWState).1.tokenCtr =
      cexWState.tokenCtr + 1 ∧
    ((flushUpdates genConst failInternal cexWState).2 = .success →
      (flushUpdates genConst failInternal cexWState).1.w.updates = []) ∧
    ((flushUpdates genConst failInternal cexWState).2 ≠ .success →
      (flushUpdates genConst failInternal cexWState).1.w.updates =
        cexWState.w.updates) ∧
    (flushUpdates genConst failInternal cexWState).1.w.finalized =
      cexWState.w.finalized ∧
    (flushUpdates genConst failInternal cexWState).1.w.invID =
      cexWState.w.invID ∧
    (flushUpdates genConst failInternal cexWState).1.w.authToken =
      cexWState.w.authToken :=
  c1_amended_flush_state genConst failInternal cexWState

/-- Claim C5: every write operation on a finalized writer — the four
typed writes and a second `Finalize` — returns the after-finalized error
synchronously and returns the state untouched: the buffer, resume token,
finalized flag and remote-call log are all exactly as before. -/
theorem c5_write_after_finalized (gen : Nat → String) (resp : Nat → Code)
    (st : WState) (c : Configuration) (cid : Configuration_Id) (t : Target)
    (ct : ConfiguredTarget) (a : Action)
    (h : st.w.finalized = true) (hc : c.id = some cid) :
    WriteConfiguration gen resp st c = some (st, some .afterFinalized) ∧
    WriteTarget gen resp st t = (st, some .afterFinalized) ∧
    WriteConfiguredTarget gen resp st ct = (st, some .afterFinalized) ∧
    WriteAction gen resp st a = (st, some .afterFinalized) ∧
    Finalize gen resp st = (st, some .afterFinalized) := by
  refine ⟨?_, ?_, ?_, ?_, ?_⟩ <;>
    simp [WriteConfiguration, WriteTarget, WriteConfiguredTarget, WriteAction,
      Finalize, createConfigurationUploadRequest, hc,
      addUploadRequest_finalized gen resp st _ h]

/-- A finalized writer state used to witness C5. -/
def finWState : WState :=
  { cexWState with w := { cexWState.w with finalized := true } }

theorem c5_write_after_finalized_witness :
    WriteConfiguration genConst failInternal finWState
        { id := some { configurationId := "c1" }, payload := "p" } =
      some (finWState, some .afterFinalized) ∧
    WriteTarget genConst failInternal finWState { id := none, payload := "p" } =
      (finWState, some .afterFinalized) ∧
    WriteConfiguredTarget genConst failInternal finWState
        { id := none, payload := "p" } =
      (finWState, some .afterFinalized) ∧
    WriteAction genConst failInternal finWState { id := none, payload := "p" } =
      (finWState, some .afterFinalized) ∧
    Finalize genConst failInternal finWState = (finWState, some .afterFinalized) :=
  c5_write_after_finalized genConst failInternal finWState
    { id := some { configurationId := "c1" }, payload := "p" }
    { configurationId := "c1" } { id := none, payload := "p" }
    { id := none, payload := "p" } { id := none, payload := "p" }
    rfl rfl

/-- Claim C4: appending the finalize marker on a non-finalized writer
sets the finalized latch (it is set in the final state regardless of the
flush outcome, for every response oracle), triggers an immediate flush —
at least one remote call is made, and every call of that flush carries
the buffer with the finalize envelope as its last entry — and afterwards
every further append is refused, again regardless of the flush
outcome. -/
theorem c4_finalize_sets_latch_and_flushes (gen : Nat → String) (resp : Nat → Code)
    (st : WState) (hf : st.w.finalized = false) :
    (Finalize gen resp st).1.w.finalized = true ∧
    st.sent.length < (Finalize gen resp st).1.sent.length ∧
    (∀ b ∈ (Finalize gen resp st).1.sent.drop st.sent.length,
      b.uploadRequests = st.w.updates ++ [finalizeRequest]) ∧
    (∀ r : UploadRequest,
      addUploadRequest gen resp (Finalize gen resp st).1 r =
        ((Finalize gen resp st).1, some .afterFinalized)) := by
  simp only [Finalize, addUploadRequest_finalize gen resp st finalizeRequest hf rfl]
  obtain ⟨h1, h2, h3, h4, h5, h6, h7⟩ := flushAttempts_state resp
    (uploadBatchRequest gen
      { st with w :=
          { st.w with finalized := true, updates := st.w.updates ++ [finalizeRequest] } }
      (st.w.updates ++ [finalizeRequest])).1
    rpcRetrySteps
    (uploadBatchRequest gen
      { st with w :=
          { st.w with finalized := true, updates := st.w.updates ++ [finalizeRequest] } }
      (st.w.updates ++ [finalizeRequest])).2
  obtain ⟨k, hsent, hkpos, -⟩ := flushAttempts_sent resp
    (uploadBatchRequest gen
      { st with w :=
          { st.w with finalized := true, updates := st.w.updates ++ [finalizeRequest] } }
      (st.w.updates ++ [finalizeRequest])).1
    rpcRetrySteps
    (uploadBatchRequest gen
      { st with w :=
          { st.w with finalized := true, updates := st.w.updates ++ [finalizeRequest] } }
      (st.w.updates ++ [finalizeRequest])).2
  have hfin : (flushUpdates gen resp
      { st with w :=
          { st.w with finalized := true, updates := st.w.updates ++ [finalizeRequest] } }).1.w.finalized
      = true := h2
  have hsent' : (flushUpdates gen resp
      { st with w :=
          { st.w with finalized := true, updates := st.w.updates ++ [finalizeRequest] } }).1.sent
      = st.sent ++ List.replicate k
          (uploadBatchRequest gen
            { st with w :=
                { st.w with finalized := true, updates := st.w.updates ++ [finalizeRequest] } }
            (st.w.updates ++ [finalizeRequest])).1 := hsent
  refine ⟨hfin, ?_, ?_, ?_⟩
  · rw [hsent']
    have hk : 0 < k := hkpos (by simp [rpcRetrySteps])
    simp [hk]
  · intro b hb
    rw [hsent'] at hb
    rw [List.drop_left] at hb
    have hb' := List.eq_of_mem_replicate hb
    subst hb'
    rfl
  · intro r
    exact addUploadRequest_finalized gen resp _ r hfin

/-- Witness for C4 at the concrete non-finalized state `cexWState`, whose
flushes all fail transiently. -/
theorem c4_finalize_sets_latch_and_flushes_witness :
    (Finalize genConst failInternal cexWState).1.w.finalized = true ∧
    cexWState.sent.length < (Finalize genConst failInternal cexWState).1.sent.length ∧
    (∀ b ∈ (Finalize genConst failInternal cexWState).1.sent.drop cexWState.sent.length,
      b.uploadRequests = cexWState.w.updates ++ [finalizeRequest]) ∧
    (∀ r : UploadRequest,
      addUploadRequest genConst failInternal (Finalize genConst failInternal cexWState).1 r =
        ((Finalize genConst failInternal cexWState).1, some .afterFinalized)) :=
  c4_finalize_sets_latch_and_flushes genConst failInternal cexWState rfl

/-- Claim C8: when one logical flush sees `n` transient failures and then
success within the `rpcRetrySteps` budget, it makes exactly `n + 1`
remote calls, every one of them the very same request — identical
envelope list (the buffer at flush time) and identical proposed next
token `gen st.tokenCtr`, generated once at request construction — and
the flush ends in success with the buffer cleared and the next token
committed as current. -/
theorem c8_retries_resend_identical_request (gen : Nat → String) (resp : Nat → Code)
    (st : WState) (n : Nat)
    (htr : ∀ j, j < n → resp (st.callCtr + j) ≠ .ok ∧
      IsPermanentError (resp (st.callCtr + j)) = false)
    (hok : resp (st.callCtr + n) = .ok)
    (hn : n < rpcRetrySteps) :
    flushUpdates gen resp st =
      ({ w := { invID := st.w.invID, authToken := st.w.authToken
              , resumeToken := gen st.tokenCtr, updates := []
              , finalized := st.w.finalized }
       , tokenCtr := st.tokenCtr + 1
       , callCtr := st.callCtr + (n + 1)
       , sent := st.sent ++ List.replicate (n + 1)
           { parent := invocationName st.w
           , resumeToken := st.w.resumeToken
           , nextResumeToken := gen st.tokenCtr
           , authorizationToken := st.w.authToken
           , uploadRequests := st.w.updates } }, .success) := by
  have h := flushAttempts_transient_then_ok resp
    (uploadBatchRequest gen st st.w.updates).1 n rpcRetrySteps
    (uploadBatchRequest gen st st.w.updates).2 htr hok hn
  exact h

/-- Witness for C8: two transient failures, then success, at the concrete
state `cexWState`. -/
theorem c8_retries_resend_identical_request_witness :
    flushUpdates genConst (fun i => if i < 2 then .unavailable else .ok) cexWState =
      ({ w := { invID := cexWState.w.invID, authToken := cexWState.w.authToken
              , resumeToken := genConst cexWState.tokenCtr, updates := []
              , finalized := cexWState.w.finalized }
       , tokenCtr := cexWState.tokenCtr + 1
       , callCtr := cexWState.callCtr + (2 + 1)
       , sent := cexWState.sent ++ List.replicate (2 + 1)
           { parent := invocationName cexWState.w
           , resumeToken := cexWState.w.resumeToken
           , nextResumeToken := genConst cexWState.tokenCtr
           , authorizationToken := cexWState.w.authToken
           , uploadRequests := cexWState.w.updates } }, .success) :=
  c8_retries_resend_identical_request genConst
    (fun i => if i < 2 then .unavailable else .ok) cexWState 2
    (by decide) (by decide) (by decide)

/-- A sequence of writes processed against an always-accepting service:
each write appends its envelope via `addUploadRequest` and the resulting
state is carried forward. -/
def runNF (gen : Nat → String) (st0 : WState) (rs : List UploadRequest) : WState :=
  rs.foldl (fun st r => (addUploadRequest gen allOk st r).1) st0

/-- The buffer-bound invariant: along any sequence of non-finalize writes
(flushes succeeding), the buffer stays strictly below `batchSize` after
each write and the writer stays non-finalized. -/
theorem runNF_invariant (gen : Nat → String) :
    ∀ (rs : List UploadRequest) (st0 : WState),
      st0.w.finalized = false → st0.w.updates.length < batchSize →
      (∀ r ∈ rs, r.uploadOperation ≠ .finalize) →
      (runNF gen st0 rs).w.finalized = false ∧
      (runNF gen st0 rs).w.updates.length < batchSize := by
  intro rs
  induction rs with
  | nil => intro st0 hf hl _; exact ⟨hf, hl⟩
  | cons r rs ih =>
    intro st0 hf hl hrs
    have hr : r.uploadOperation ≠ .finalize := hrs r (by simp)
    have hrs' : ∀ x ∈ rs, x.uploadOperation ≠ .finalize :=
      fun x hx => hrs x (by simp [hx])
    have hstep : runNF gen st0 (r :: rs) =
        runNF gen (addUploadRequest gen allOk st0 r).1 rs := rfl
    rw [hstep]
    by_cases hsmall : st0.w.updates.length + 1 < batchSize
    · rw [addUploadRequest_below gen allOk st0 r hf hr hsmall]
      exact ih _ hf (by simpa using hsmall) hrs'
    · rw [addUploadRequest_full gen allOk st0 r hf hr hsmall]
      rw [flushUpdates_allOk]
      exact ih _ hf (by simp [batchSize]) hrs'

/-- Claim C3: for every sequence of non-finalize writes accepted by the
writer, the pending buffer stays below `batchSize` between calls (so it
holds at most `batchSize` envelopes at the instant a flush is issued),
an append that leaves the buffer below `batchSize` returns without
flushing and changes nothing but the buffer, an append that brings the
buffer to `batchSize` issues exactly one flush carrying the full buffer,
and in general a flush is issued exactly when the append reaches
`batchSize`. -/
theorem c3_buffer_bounded_flush_at_batch_size (gen : Nat → String) (st0 : WState)
    (rs : List UploadRequest)
    (h0f : st0.w.finalized = false) (h0u : st0.w.updates = [])
    (hrs : ∀ r ∈ rs, r.uploadOperation ≠ .finalize) :
    (∀ n : Nat, (runNF gen st0 (rs.take n)).w.updates.length < batchSize) ∧
    (∀ (st : WState) (r : UploadRequest),
      st.w.finalized = false → r.uploadOperation ≠ .finalize →
      st.w.updates.length + 1 < batchSize →
      addUploadRequest gen allOk st r =
        ({ st with w := { st.w with updates := st.w.updates ++ [r] } }, none)) ∧
    (∀ (st : WState) (r : UploadRequest),
      st.w.finalized = false → r.uploadOperation ≠ .finalize →
      st.w.updates.length + 1 = batchSize →
      (addUploadRequest gen allOk st r).1.w.updates = [] ∧
      (addUploadRequest gen allOk st r).1.sent.length = st.sent.length + 1 ∧
      (addUploadRequest gen allOk st r).1.sent.drop st.sent.length =
        [{ parent := invocationName st.w
         , resumeToken := st.w.resumeToken
         , nextResumeToken := gen st.tokenCtr
         , authorizationToken := st.w.authToken
         , uploadRequests := st.w.updates ++ [r] }] ∧
      (addUploadRequest gen allOk st r).2 = none) ∧
    (∀ (st : WState) (r : UploadRequest),
      st.w.finalized = false → r.uploadOperation ≠ .finalize →
      st.w.updates.length + 1 ≤ batchSize →
      ((addUploadRequest gen allOk st r).1.sent.length ≠ st.sent.length ↔
        st.w.updates.length + 1 = batchSize)) := by
  refine ⟨?_, ?_, ?_, ?_⟩
  · intro n
    exact (runNF_invariant gen (rs.take n) st0 h0f (by simp [h0u, batchSize])
      (fun r hr => hrs r (List.take_subset n rs hr))).2
  · intro st r hf hr hsmall
    exact addUploadRequest_below gen allOk st r hf hr hsmall
  · intro st r hf hr hfull
    rw [addUploadRequest_full gen allOk st r hf hr (by omega), flushUpdates_allOk]
    refine ⟨rfl, by simp, ?_, rfl⟩
    simp [List.drop_left, invocationName]
  · intro st r hf hr hle
    by_cases hsmall : st.w.updates.length + 1 < batchSize
    · rw [addUploadRequest_below gen allOk st r hf hr hsmall]
      simp
      omega
    · rw [addUploadRequest_full gen allOk st r hf hr hsmall, flushUpdates_allOk]
      simp
      omega

/-- Witness for C3: a run of three non-finalize writes from a fresh
state. -/
theorem c3_buffer_bounded_flush_at_batch_size_witness :
    (∀ n : Nat,
      (runNF genConst
        { cexWState with w := { cexWState.w with updates := [] } }
        (List.replicate 3 sampleReq |>.take n)).w.updates.length < batchSize) ∧
    (∀ (st : WState) (r : UploadRequest),
      st.w.finalized = false → r.uploadOperation ≠ .finalize →
      st.w.updates.length + 1 < batchSize →
      addUploadRequest genConst allOk st r =
        ({ st with w := { st.w with updates := st.w.updates ++ [r] } }, none)) ∧
    (∀ (st : WState) (r : UploadRequest),
      st.w.finalized = false → r.uploadOperation ≠ .finalize →
      st.w.updates.length + 1 = batchSize →
      (addUploadRequest genConst allOk st r).1.w.updates = [] ∧
      (addUploadRequest genConst allOk st r).1.sent.length = st.sent.length + 1 ∧
      (addUploadRequest genConst allOk st r).1.sent.drop st.sent.length =
        [{ parent := invocationName st.w
         , resumeToken := st.w.resumeToken
         , nextResumeToken := genConst st.tokenCtr
         , authorizationToken := st.w.authToken
         , uploadRequests := st.w.updates ++ [r] }] ∧
      (addUploadRequest genConst allOk st r).2 = none) ∧
    (∀ (st : WState) (r : UploadRequest),
      st.w.finalized = false → r.uploadOperation ≠ .finalize →
      st.w.updates.length + 1 ≤ batchSize →
      ((addUploadRequest genConst allOk st r).1.sent.length ≠ st.sent.length ↔
        st.w.updates.length + 1 = batchSize)) :=
  c3_buffer_bounded_flush_at_batch_size genConst
    { cexWState with w := { cexWState.w with updates := [] } }
    (List.replicate 3 sampleReq) rfl rfl
    (by decide)

/-- Claim C7: when the create call succeeds on the first attempt, `New`
returns the fresh writer immediately, and that writer's current resume
token is exactly the `InitialResumeToken` carried by the
`CreateInvocation` request it sent. -/
theorem c7_fresh_invocation (gen : Nat → String)
    (createResp touchResp metaResp : Nat → Code)
    (metaToken inv invID authToken : String)
    (h : createResp 0 = .ok) :
    New gen createResp touchResp metaResp metaToken invID authToken =
      .ok (initialWriter gen invID authToken) ∧
    (createInvocationRequest (initialWriter gen invID authToken) inv).initialResumeToken =
      (initialWriter gen invID authToken).resumeToken := by
  refine ⟨?_, rfl⟩
  rw [New, show rpcRetrySteps = 7 + 1 from rfl]
  rw [retryLoop]
  simp [h]

theorem c7_fresh_invocation_witness :
    New genConst allOk failInternal failInternal "meta" "inv-7" "auth-7" =
      .ok (initialWriter genConst "inv-7" "auth-7") ∧
    (createInvocationRequest (initialWriter genConst "inv-7" "auth-7") "payload").initialResumeToken =
      (initialWriter genConst "inv-7" "auth-7").resumeToken :=
  c7_fresh_invocation genConst allOk failInternal failInternal "meta" "payload"
    "inv-7" "auth-7" rfl

/-- Claim C6: when creation fails with AlreadyExists, then (a) a
permanent touch failure makes `New` return the original AlreadyExists
creation error and no writer, while (b) a non-permanent touch outcome
(success, or budget exhaustion, which surfaces the non-permanent
`wait.ErrWaitTimeout`) followed by a successful metadata fetch makes
`New` return the writer with the service-held resume token adopted as its
current token. -/
theorem c6_resume_handshake (gen : Nat → String)
    (createResp touchResp metaResp : Nat → Code)
    (metaToken invID authToken : String)
    (hc : createResp 0 = .alreadyExists) :
    (IsPermanentErrorOpt (retryLoop touchResp rpcRetrySteps 0).1 = true →
      New gen createResp touchResp metaResp metaToken invID authToken =
        .err (.status .alreadyExists)) ∧
    (IsPermanentErrorOpt (retryLoop touchResp rpcRetrySteps 0).1 = false →
      (retryLoop metaResp rpcRetrySteps 0).1 = none →
      New gen createResp touchResp metaResp metaToken invID authToken =
        .ok { initialWriter gen invID authToken with resumeToken := metaToken }) := by
  have hcreate : (retryLoop createResp rpcRetrySteps 0).1 =
      some (.status .alreadyExists) := by
    rw [show rpcRetrySteps = 7 + 1 from rfl, retryLoop]
    simp [hc, IsPermanentError]
  constructor
  · intro htouch
    rw [New, hcreate]
    simp [IsAlreadyExistsErr, errCode, htouch]
  · intro htouch hmeta
    rw [New, hcreate]
    simp [IsAlreadyExistsErr, errCode, htouch, hmeta]

theorem c6_resume_handshake_witness :
    New genConst (fun _ => Code.alreadyExists) (fun _ => Code.failedPrecondition)
        allOk "meta" "inv-6" "auth-6" =
      .err (.status .alreadyExists) ∧
    New genConst (fun _ => Code.alreadyExists) allOk allOk "meta" "inv-6" "auth-6" =
      .ok { initialWriter genConst "inv-6" "auth-6" with resumeToken := "meta" } :=
  ⟨(c6_resume_handshake genConst (fun _ => Code.alreadyExists)
      (fun _ => Code.failedPrecondition) allOk "meta" "inv-6" "auth-6" rfl).1
      (by decide),
   (c6_resume_handshake genConst (fun _ => Code.alreadyExists)
      allOk allOk "meta" "inv-6" "auth-6" rfl).2 (by decide) (by decide)⟩

/-! ### The C9 scenario: 150 configuration writes, then finalize -/

/-- A fresh writer state as produced by a successful first-try open. -/
def freshWState : WState :=
  { w := { invID := "inv-9", authToken := "auth-9", resumeToken := "r0"
         , updates := [], finalized := false }
  , tokenCtr := 0, callCtr := 0, sent := [] }

/-- The configuration written 150 times in the scenario. -/
def c9Cfg : Configuration := { id := some { configurationId := "cfg" }, payload := "p" }

/-- One scenario step: write `c9Cfg` against an always-accepting
service. -/
def c9Step (st : WState) : WState :=
  match WriteConfiguration genConst allOk st c9Cfg with
  | some p => p.1
  | none => st

/-- The state after the 150 configuration writes. -/
def c9AfterWrites : WState := c9Step^[150] freshWState

/-- The scenario's final state and result: finalize after the 150
writes. -/
def c9Done : WState × Option WriteErr := Finalize genConst allOk c9AfterWrites

/-- Claim C9: 150 configuration writes followed by finalize, with every
flush succeeding, produce exactly two batched upload calls — the first
carrying 100 envelopes and no finalize marker, the second 51 envelopes
including the finalize marker — the finalize itself succeeds, and a
further configuration write is rejected with the after-finalized
error, leaving the state untouched. -/
theorem c9_scenario_two_batches :
    c9Done.1.sent.map (fun b => b.uploadRequests.length) = [100, 51] ∧
    c9Done.1.sent.map (fun b =>
      (b.uploadRequests.filter
        (fun r => decide (r.uploadOperation = .finalize))).length) = [0, 1] ∧
    c9Done.2 = none ∧
    c9Done.1.w.finalized = true ∧
    WriteConfiguration genConst allOk c9Done.1 c9Cfg =
      some (c9Done.1, some .afterFinalized) := by
  set_option maxRecDepth 10000 in decide

end ResultStoreWriter
